import Mathlib

/-!
A verification development for `src/tools/run-make-support/src/rustdoc.rs`:
a fluent builder (`Rustdoc`) that assembles a command-line invocation for
the external `rustdoc` tool.

Paths (`AsRef<Path>`, `OsStr`) are embedded as `String`; on the embedded
strings, `to_string_lossy` / `display` are the identity.  Bytes of a stdin
payload are embedded as `Nat` (no arithmetic is performed on them).
-/

/-- The process environment, a map from variable names to values. -/
abbrev Env := String → String

/-- Modelled from the spec: `env_var` (from the crate root, not in the
provided sources) reads one named environment configuration entry. -/
def env_var (env : Env) (name : String) : String := env name

/-- Modelled from the spec: `env_var_os` reads a named environment entry as
an OS string; combined with `to_string_lossy` it is, on the embedded
strings, the same lookup as `env_var`. -/
def env_var_os (env : Env) (name : String) : String := env name

/-- Modelled from the spec: the `Command` process-invocation primitive
(`crate::command::Command`, not in the provided sources).  Per the spec's
data model an Invocation holds an executable path (set once), an ordered
argument sequence (insertion order significant, never reordered), and an
optional stdin payload (at most one); the host-library-path adjustment of
`set_host_rpath` is separate from the argument sequence. -/
structure Command where
  executable : String
  args : List String
  stdin_payload : Option (List Nat)
  host_rpath : Bool
deriving Repr, DecidableEq

/-- Modelled from the spec: `Command::new` makes a command for the given
executable with no arguments and no stdin payload. -/
def Command.new (executable : String) : Command :=
  { executable := executable, args := [], stdin_payload := none, host_rpath := false }

/-- Modelled from the spec: `Command::arg` appends one token at the end of
the argument sequence, touching nothing else. -/
def Command.arg (c : Command) (a : String) : Command :=
  { c with args := c.args ++ [a] }

/-- Modelled from the spec: `Command::set_stdin` stores the payload,
overwriting any previously set one; it does not touch the arguments. -/
def Command.set_stdin (c : Command) (input : List Nat) : Command :=
  { c with stdin_payload := some input }

/-- Modelled from the spec: `set_host_rpath` applies the host-library-path
adjustment, which is separate from the argument sequence. -/
def set_host_rpath (c : Command) : Command :=
  { c with host_rpath := true }

/-- Rust's `char::is_whitespace`: the Unicode `White_Space` property. -/
def rust_is_whitespace (c : Char) : Bool :=
  (0x09 ≤ c.toNat && c.toNat ≤ 0x0D) || c.toNat == 0x20 || c.toNat == 0x85 ||
  c.toNat == 0xA0 || c.toNat == 0x1680 ||
  (0x2000 ≤ c.toNat && c.toNat ≤ 0x200A) || c.toNat == 0x2028 ||
  c.toNat == 0x2029 || c.toNat == 0x202F || c.toNat == 0x205F || c.toNat == 0x3000

/-- `pub struct Rustdoc { cmd: Command }` -/
structure Rustdoc where
  cmd : Command
deriving Repr, DecidableEq

/-- `fn setup_common() -> Command`: read `RUSTDOC`, build the command,
apply the host rpath adjustment. -/
def setup_common (env : Env) : Command :=
  set_host_rpath (Command.new (env_var env "RUSTDOC"))

namespace Rustdoc

/-- `Rustdoc::bare`: a bare invocation. -/
def bare (env : Env) : Rustdoc :=
  { cmd := setup_common env }

/-- `Rustdoc::new`: as `bare`, then `cmd.arg(format!("-L{}", target_rpath_dir))`
with `target_rpath_dir` read from `TARGET_RPATH_DIR`. -/
def new (env : Env) : Rustdoc :=
  { cmd := (setup_common env).arg ("-L" ++ env_var_os env "TARGET_RPATH_DIR") }

/-- The condition of `Rustdoc::extern_`'s `assert!`, negated: the crate
name contains a character that is whitespace, `'\\'` or `'/'`. -/
def bad_crate_name (crate_name : String) : Bool :=
  crate_name.toList.any fun c => rust_is_whitespace c || c == '\\' || c == '/'

/-- `Rustdoc::extern_`: assert the crate name has no whitespace and no path
separator, then append `--extern` and `crate_name=path`.  The `assert!` is
the first statement of the body, so a panic (embedded as `Except.error`)
leaves the builder exactly as it was; the error value records that state. -/
def extern_ (b : Rustdoc) (crate_name : String) (path : String) :
    Except Rustdoc Rustdoc :=
  if bad_crate_name crate_name then
    Except.error b
  else
    Except.ok { cmd := (b.cmd.arg "--extern").arg (crate_name ++ "=" ++ path) }

/-- `Rustdoc::input`: append the path as a bare token. -/
def input (b : Rustdoc) (path : String) : Rustdoc :=
  { cmd := b.cmd.arg path }

/-- `Rustdoc::output`: append `-o` then the path. -/
def output (b : Rustdoc) (path : String) : Rustdoc :=
  { cmd := (b.cmd.arg "-o").arg path }

/-- `Rustdoc::out_dir`: append `--out-dir` then the path. -/
def out_dir (b : Rustdoc) (path : String) : Rustdoc :=
  { cmd := (b.cmd.arg "--out-dir").arg path }

/-- `Rustdoc::arg_file`: append the single token `@` ++ path. -/
def arg_file (b : Rustdoc) (path : String) : Rustdoc :=
  { cmd := b.cmd.arg ("@" ++ path) }

/-- `Rustdoc::stdin`: store the payload through `Command::set_stdin`. -/
def stdin (b : Rustdoc) (inp : List Nat) : Rustdoc :=
  { cmd := b.cmd.set_stdin inp }

/-- `Rustdoc::edition`: append `--edition` then the edition string. -/
def edition (b : Rustdoc) (e : String) : Rustdoc :=
  { cmd := (b.cmd.arg "--edition").arg e }

/-- `Rustdoc::target`: append the single token `--target=` ++ target. -/
def target (b : Rustdoc) (t : String) : Rustdoc :=
  { cmd := b.cmd.arg ("--target=" ++ t) }

/-- `Rustdoc::crate_type`: append `--crate-type` then the value. -/
def crate_type (b : Rustdoc) (t : String) : Rustdoc :=
  { cmd := (b.cmd.arg "--crate-type").arg t }

/-- `Rustdoc::crate_name`: append `--crate-name` then the value. -/
def crate_name (b : Rustdoc) (n : String) : Rustdoc :=
  { cmd := (b.cmd.arg "--crate-name").arg n }

/-- `Rustdoc::library_search_path`: append `-L` then the path, two tokens. -/
def library_search_path (b : Rustdoc) (p : String) : Rustdoc :=
  { cmd := (b.cmd.arg "-L").arg p }

/-- `Rustdoc::output_format`: append `--output-format` then the value. -/
def output_format (b : Rustdoc) (f : String) : Rustdoc :=
  { cmd := (b.cmd.arg "--output-format").arg f }

end Rustdoc

/-- One configuration call of the builder, covering every configuration
method of `impl Rustdoc`. -/
inductive Call where
  | extern_ (crate_name path : String)
  | input (path : String)
  | output (path : String)
  | out_dir (path : String)
  | arg_file (path : String)
  | stdin (inp : List Nat)
  | edition (e : String)
  | target (t : String)
  | crate_type (t : String)
  | crate_name (n : String)
  | library_search_path (p : String)
  | output_format (f : String)
deriving Repr, DecidableEq

/-- Apply one configuration call; `Except.error` is the fatal precondition
panic of `extern_`, carrying the builder state at the failure point. -/
def applyCall : Call → Rustdoc → Except Rustdoc Rustdoc
  | .extern_ n p, b => b.extern_ n p
  | .input p, b => Except.ok (b.input p)
  | .output p, b => Except.ok (b.output p)
  | .out_dir p, b => Except.ok (b.out_dir p)
  | .arg_file p, b => Except.ok (b.arg_file p)
  | .stdin i, b => Except.ok (b.stdin i)
  | .edition e, b => Except.ok (b.edition e)
  | .target t, b => Except.ok (b.target t)
  | .crate_type t, b => Except.ok (b.crate_type t)
  | .crate_name n, b => Except.ok (b.crate_name n)
  | .library_search_path p, b => Except.ok (b.library_search_path p)
  | .output_format f, b => Except.ok (b.output_format f)

/-- Apply a finite sequence of configuration calls, in order. -/
def applyCalls : List Call → Rustdoc → Except Rustdoc Rustdoc
  | [], b => Except.ok b
  | c :: cs, b => (applyCall c b).bind (applyCalls cs)

/-- The token list each call is documented to append (the spec's §4.1
table); the stdin call appends none. -/
def Call.tokens : Call → List String
  | .extern_ n p => ["--extern", n ++ "=" ++ p]
  | .input p => [p]
  | .output p => ["-o", p]
  | .out_dir p => ["--out-dir", p]
  | .arg_file p => ["@" ++ p]
  | .stdin _ => []
  | .edition e => ["--edition", e]
  | .target t => ["--target=" ++ t]
  | .crate_type t => ["--crate-type", t]
  | .crate_name n => ["--crate-name", n]
  | .library_search_path p => ["-L", p]
  | .output_format f => ["--output-format", f]

/-- One successful call appends exactly its documented tokens. -/
lemma applyCall_args (c : Call) (b b' : Rustdoc)
    (h : applyCall c b = Except.ok b') :
    b'.cmd.args = b.cmd.args ++ c.tokens := by
  cases c <;>
    simp only [applyCall, Rustdoc.input, Rustdoc.output, Rustdoc.out_dir,
      Rustdoc.arg_file, Rustdoc.stdin, Rustdoc.edition, Rustdoc.target,
      Rustdoc.crate_type, Rustdoc.crate_name, Rustdoc.library_search_path,
      Rustdoc.output_format, Rustdoc.extern_, Command.arg, Command.set_stdin,
      Call.tokens] at h ⊢
  case extern_ n p =>
    by_cases hb : Rustdoc.bad_crate_name n
    · simp [hb] at h
    · simp [hb] at h
      subst h
      simp [Command.arg]
  all_goals (cases h; simp)

/-- C1: for every finite sequence of configuration calls, a run that does
not hit the fatal precondition leaves the argument sequence equal to the
initial one followed by the concatenation, in call order, of the token
lists each call is documented to append; no call reorders, removes or
deduplicates previously appended tokens. -/
theorem applyCalls_args_concat (calls : List Call) (b b' : Rustdoc)
    (h : applyCalls calls b = Except.ok b') :
    b'.cmd.args = b.cmd.args ++ (calls.map Call.tokens).flatten := by
  induction calls generalizing b with
  | nil =>
      simp only [applyCalls] at h
      cases h
      simp
  | cons c cs ih =>
      simp only [applyCalls] at h
      cases hc : applyCall c b with
      | error e => rw [hc] at h; cases h
      | ok b₁ =>
          rw [hc] at h
          have h1 := applyCall_args c b b₁ hc
          have h2 := ih b₁ h
          rw [h2, h1]
          simp

/-- Concrete run of `applyCalls_args_concat`: two calls from a bare
builder. -/
theorem applyCalls_args_concat_witness :
    applyCalls [Call.extern_ "foo_bar" "p", Call.target "t"] (Rustdoc.bare fun _ => "rd")
      = Except.ok ⟨⟨"rd", ["--extern", "foo_bar=p", "--target=t"], none, true⟩⟩
    ∧ (⟨⟨"rd", ["--extern", "foo_bar=p", "--target=t"], none, true⟩⟩ : Rustdoc).cmd.args
      = (Rustdoc.bare fun _ => "rd").cmd.args
        ++ ([Call.extern_ "foo_bar" "p", Call.target "t"].map Call.tokens).flatten :=
  ⟨rfl, applyCalls_args_concat _ _ _ rfl⟩

/-- C2: `extern_` panics exactly when the crate name contains whitespace or
a path separator; `"foo bar"` and `"foo/bar"` fail for every path, while
`"foo_bar"` succeeds for every path. -/
theorem extern_panics_iff (b : Rustdoc) (p : String) :
    (∀ name : String, b.extern_ name p = Except.error b ↔
        ∃ c ∈ name.toList, rust_is_whitespace c = true ∨ c = '\\' ∨ c = '/')
    ∧ b.extern_ "foo bar" p = Except.error b
    ∧ b.extern_ "foo/bar" p = Except.error b
    ∧ ∃ b', b.extern_ "foo_bar" p = Except.ok b' := by
  refine ⟨fun name => ?_, ?_, ?_, ?_⟩
  · by_cases hb : Rustdoc.bad_crate_name name
    · simp only [Rustdoc.extern_, hb, if_true, true_iff]
      simpa [Rustdoc.bad_crate_name, List.any_eq_true, or_assoc] using hb
    · simp only [Rustdoc.extern_, hb, if_false]
      constructor
      · intro h; cases h
      · intro h
        exact absurd (by simpa [Rustdoc.bad_crate_name, List.any_eq_true, or_assoc] using h) hb
  · simp [Rustdoc.extern_, Rustdoc.bad_crate_name, rust_is_whitespace]
  · simp [Rustdoc.extern_, Rustdoc.bad_crate_name, rust_is_whitespace]
  · exact ⟨_, rfl⟩

/-- C3: the chain `bare |> crate_name "foo" |> edition "2021" |>
input "main.rs" |> output_format "html"` yields exactly the documented
token sequence and leaves the stdin payload unset. -/
theorem chain_scenario (env : Env) :
    (((((Rustdoc.bare env).crate_name "foo").edition "2021").input "main.rs").output_format "html").cmd.args
      = ["--crate-name", "foo", "--edition", "2021", "main.rs", "--output-format", "html"]
    ∧ (((((Rustdoc.bare env).crate_name "foo").edition "2021").input "main.rs").output_format "html").cmd.stdin_payload
      = none :=
  ⟨rfl, rfl⟩

/-- C4: `target t` appends exactly one token, `"--target=" ++ t`. -/
theorem target_single_token (b : Rustdoc) (t : String) :
    (b.target t).cmd.args = b.cmd.args ++ ["--target=" ++ t]
    ∧ (b.target t).cmd.args.length = b.cmd.args.length + 1 :=
  ⟨rfl, by simp [Rustdoc.target, Command.arg]⟩

/-- C5: `new` produces an argument sequence that is exactly one
library-search-path flag fused with the `TARGET_RPATH_DIR` value. -/
theorem new_single_search_path (env : Env) :
    (Rustdoc.new env).cmd.args = ["-L" ++ env_var_os env "TARGET_RPATH_DIR"] :=
  rfl

/-- C6: calling `stdin` with `x` and then `y` leaves the payload equal to
`y` alone; the first payload is discarded, never concatenated. -/
theorem stdin_overwrite (b : Rustdoc) (x y : List Nat) :
    ((b.stdin x).stdin y).cmd.stdin_payload = some y :=
  rfl

/-- C7: `bare` produces an empty argument sequence and the executable path
read from the `RUSTDOC` environment entry. -/
theorem bare_empty_args (env : Env) :
    (Rustdoc.bare env).cmd.args = []
    ∧ (Rustdoc.bare env).cmd.executable = env_var env "RUSTDOC" :=
  ⟨rfl, rfl⟩

/-- C8: `stdin` appends no tokens and leaves the executable and the
arguments unchanged; the payload goes to the separate stdin field only. -/
theorem stdin_frame (b : Rustdoc) (x : List Nat) :
    (b.stdin x).cmd.args = b.cmd.args
    ∧ (b.stdin x).cmd.executable = b.cmd.executable
    ∧ (b.stdin x).cmd.stdin_payload = some x :=
  ⟨rfl, rfl, rfl⟩

/-- C9: when `extern_`'s precondition is violated, the panic happens before
any token is appended: the state at the failure point has exactly the
arguments and stdin payload the builder had before the call. -/
theorem extern_fails_before_append (b : Rustdoc) (name p : String)
    (h : ∃ c ∈ name.toList, rust_is_whitespace c = true ∨ c = '\\' ∨ c = '/') :
    ∃ e, b.extern_ name p = Except.error e
      ∧ e.cmd.args = b.cmd.args ∧ e.cmd.stdin_payload = b.cmd.stdin_payload := by
  have hb : Rustdoc.bad_crate_name name = true := by
    simpa [Rustdoc.bad_crate_name, List.any_eq_true, or_assoc] using h
  exact ⟨b, by simp [Rustdoc.extern_, hb], rfl, rfl⟩

/-- Concrete run of `extern_fails_before_append` on the name "foo bar". -/
theorem extern_fails_before_append_witness :
    (∃ c ∈ "foo bar".toList, rust_is_whitespace c = true ∨ c = '\\' ∨ c = '/')
    ∧ ∃ e, (Rustdoc.bare fun _ => "rd").extern_ "foo bar" "p" = Except.error e
        ∧ e.cmd.args = (Rustdoc.bare fun _ => "rd").cmd.args
        ∧ e.cmd.stdin_payload = (Rustdoc.bare fun _ => "rd").cmd.stdin_payload :=
  ⟨by decide, extern_fails_before_append _ _ _ (by decide)⟩

/-- C10: `library_search_path` appends the two tokens `-L` and the path,
independently on each call, while `new` appends the default search path as
one fused `-L<dir>` token; the two spellings differ. -/
theorem library_search_path_tokens (env : Env) (b : Rustdoc) (p q : String) :
    (b.library_search_path p).cmd.args = b.cmd.args ++ ["-L", p]
    ∧ ((b.library_search_path p).library_search_path q).cmd.args
        = b.cmd.args ++ ["-L", p, "-L", q]
    ∧ (Rustdoc.new env).cmd.args = ["-L" ++ env_var_os env "TARGET_RPATH_DIR"]
    ∧ ["-L" ++ env_var_os env "TARGET_RPATH_DIR"]
        ≠ ["-L", env_var_os env "TARGET_RPATH_DIR"] := by
  refine ⟨?_, ?_, rfl, ?_⟩
  · simp [Rustdoc.library_search_path, Command.arg]
  · simp [Rustdoc.library_search_path, Command.arg]
  · simp
